import Mathlib

/-!
Shallow embedding of `src/cli/src/main.rs` from the `ledger_installer`
repository (a CLI driving device-management workflows on a Ledger-style
hardware wallet), together with theorems settling the specification claims.

Modelling choices:
* The external `ledger_manager` primitives are an oracle (`Device`): each
  field records the outcome the corresponding primitive would return on this
  run.  Opaque payloads (`DeviceInfo`, app descriptors, underlying errors)
  are abstracted to `String`; the Rust code only ever formats them into
  messages.
* Process effects are a state `St`: the stdout lines, the stderr lines, the
  trace of external calls attempted (`Event`), and the exit status once the
  process has terminated.  The Rust `error!` macro prints on stderr and exits
  with status 1 (`St.errorExit`).  `unimplemented!()` panics with the message
  "not implemented"; a Rust panic unwinds out of `main` and the runtime
  terminates the process with exit status 101 and the panic message on
  stderr (`St.panicExit`).
* Functions that terminate the process early return through the left summand
  of `⊕`, mirroring Rust's divergence of `error!` inside a `match`.
-/

namespace LedgerInstaller

inductive LedgerApp
  | Solana
  deriving DecidableEq, Repr

/-- Errors of `ledger_manager::InstallErr`. -/
inductive InstallErr
  | AlreadyInstalled
  | AppNotFound
  | Any (e : String)
  deriving DecidableEq, Repr

/-- Errors of `ledger_manager::UpdateErr`. -/
inductive UpdateErr
  | NotInstalled
  | AppNotFound
  | AlreadyLatest
  | Any (e : String)
  deriving DecidableEq, Repr

/-- The ambient process configuration read by `Command::get`:
`LEDGER_COMMAND` (a string, possibly absent), and the presence of the
`LEDGER_TESTNET` and `LEDGER_SOLANA` environment variables. -/
structure Config where
  ledger_command : Option String
  ledger_testnet : Bool
  ledger_solana : Bool
  deriving DecidableEq, Repr

/-- The `Command` enum of `main.rs`. -/
inductive Command
  | GetInfo
  | GenuineCheck
  | InstallMainApp
  | UpdateMainApp
  | OpenMainApp
  | InstallTestApp
  | UpdateTestApp
  | OpenTestApp
  | InstallSolana
  | UpdateSolana
  | OpenSolana
  | UpdateFirmware
  deriving DecidableEq, Repr

/-- Resolution, `Command::get`: read the command from environment variables.
Mirrors the if/else chain of `main.rs` lines 36-74. -/
def Command.get (cfg : Config) : Option Command :=
  let is_testnet := cfg.ledger_testnet
  let is_solana := cfg.ledger_solana
  match cfg.ledger_command with
  | none => none
  | some cmd_str =>
    if cmd_str = "getinfo" then
      some .GetInfo
    else if cmd_str = "genuinecheck" then
      some .GenuineCheck
    else if cmd_str = "installapp" then
      if is_solana then some .InstallSolana
      else if is_testnet then some .InstallTestApp
      else some .InstallMainApp
    else if cmd_str = "updateapp" then
      if is_solana then some .UpdateSolana
      else if is_testnet then some .UpdateTestApp
      else some .UpdateMainApp
    else if cmd_str = "openapp" then
      if is_solana then some .OpenSolana
      else if is_testnet then some .OpenTestApp
      else some .OpenMainApp
    else if cmd_str = "updatefirm" then
      some .UpdateFirmware
    else
      none

/-- One attempted call into the transport layer or the external
device-management primitives, in the order the program issues them. -/
inductive Event
  | hidApiNew
  | transportNew
  | deviceInfoFetch
  | listApps
  | genuineCheckCall
  | installBitcoinCall (is_testnet : Bool)
  | updateBitcoinCall (is_testnet : Bool)
  | openBitcoinCall (is_testnet : Bool)
  | installAppCall (app : LedgerApp)
  | updateAppCall (app : LedgerApp)
  | openAppCall (app : LedgerApp)
  deriving DecidableEq, Repr

/-- Events other than `hidApiNew`/`transportNew` (which open the transport)
are device-management primitives issued over the session. -/
def Event.isDevicePrimitive : Event → Bool
  | .hidApiNew => false
  | .transportNew => false
  | _ => true

/-- Oracle for the external collaborator: the outcome each primitive would
return on this run.  Opaque payloads and underlying errors are `String`s. -/
structure Device where
  hidApiNew : Except String Unit
  transportNew : Except String Unit
  deviceInfoNew : Except String String
  list_installed_apps : Except String (List String)
  genuine_check : Except String Unit
  install_bitcoin_app : Bool → Except InstallErr Unit
  update_bitcoin_app : Bool → Except UpdateErr Unit
  open_bitcoin_app : Bool → Except String Unit
  install_app : LedgerApp → Except InstallErr Unit
  update_app : LedgerApp → Except UpdateErr Unit
  open_app : LedgerApp → Except String Unit

/-- Process state: stdout lines, stderr lines, the trace of external calls
attempted, and the exit status once the process has terminated. -/
structure St where
  stdout : List String
  stderr : List String
  events : List Event
  exit : Option Nat
  deriving DecidableEq, Repr

def st0 : St := ⟨[], [], [], none⟩

def St.printLn (s : St) (m : String) : St :=
  { s with stdout := s.stdout ++ [m] }

def St.log (s : St) (e : Event) : St :=
  { s with events := s.events ++ [e] }

/-- The `error!` macro: print on stderr and exit with 1. -/
def St.errorExit (s : St) (m : String) : St :=
  { s with stderr := s.stderr ++ [m], exit := some 1 }

/-- Panic semantics of the firmware stub: `unimplemented` panics with "not implemented"; the Rust runtime prints
the panic message on stderr and terminates the process with status 101. -/
def St.panicExit (s : St) (m : String) : St :=
  { s with stderr := s.stderr ++ [m], exit := some 101 }

def exOk {α : Type} : Except String α → Bool
  | .ok _ => true
  | .error _ => false

/-- Both transport-opening steps of `ledger_api()` succeed on this device. -/
def transportOk (dev : Device) : Bool :=
  exOk dev.hidApiNew && exOk dev.transportNew

/-- Source `fn ledger_api` (lines 77-86): initialize the HID
api then connect to the device; `error!` on either failure. -/
def ledger_api (dev : Device) (s : St) : St ⊕ St :=
  let s := s.log .hidApiNew
  match dev.hidApiNew with
  | .error e => .inl (s.errorExit ("Error initializing HDI api: " ++ e ++ "."))
  | .ok _ =>
    let s := s.log .transportNew
    match dev.transportNew with
    | .error e => .inl (s.errorExit ("Error connecting to Ledger device: " ++ e ++ "."))
    | .ok _ => .inr s

/-- Source `fn device_info` (lines 88-93). -/
def device_info (dev : Device) (s : St) : St ⊕ (St × String) :=
  let s := s.log .deviceInfoFetch
  match dev.deviceInfoNew with
  | .ok i => .inr (s, i)
  | .error e => .inl (s.errorExit ("Error fetching device info: " ++ e))

def msg_querying_apps : String :=
  "Querying installed applications from your Ledger. You might have to confirm on your device."

/-- Source `fn print_ledger_info` (lines 95-108). -/
def print_ledger_info (dev : Device) (s : St) : St :=
  match device_info dev s with
  | .inl s => s
  | .inr (s, info) =>
    let s := s.printLn ("Information about the device: " ++ info)
    let s := s.printLn msg_querying_apps
    let s := s.log .listApps
    match dev.list_installed_apps with
    | .error e => s.errorExit ("Error listing installed applications: " ++ e ++ ".")
    | .ok apps =>
      let s := s.printLn "Installed applications:"
      apps.foldl (fun s app => s.printLn ("  - " ++ app)) s

/-- Source `fn perform_genuine_check` (lines 110-116). -/
def perform_genuine_check (dev : Device) (s : St) : St :=
  let s := s.printLn "Querying Ledger's remote HSM to perform the genuine check. You might have to confirm the operation on your device."
  let s := s.log .genuineCheckCall
  match dev.genuine_check with
  | .error e => s.errorExit ("Error when performing genuine check: " ++ e)
  | .ok _ => s.printLn "Success. Your Ledger is genuine."

def msg_allow_install : String :=
  "You may have to allow on your device 1) listing installed apps 2) the Ledger manager to install the app."

def msg_btc_already_installed : String :=
  "Bitcoin app already installed. Use the update command to update it."

def msg_btc_app_not_found : String :=
  "Could not get info about Bitcoin app."

def msg_btc_not_installed : String :=
  "Bitcoin app isn't installed. Use the install command instead."

def msg_btc_already_latest : String :=
  "Bitcoin app is already at the latest version."

def msg_sol_already_installed : String :=
  "Solana app already installed. Use the update command to update it."

def msg_sol_app_not_found : String :=
  "Could not get info about Solana app."

def msg_sol_not_installed : String :=
  "Solana app isn't installed. Use the install command instead."

def msg_sol_already_latest : String :=
  "Solana app is already at the latest version."

/-- Source `fn install_bitcoin` (lines 119-129). -/
def install_bitcoin (dev : Device) (is_testnet : Bool) (s : St) : St :=
  let s := s.printLn msg_allow_install
  let s := s.log (.installBitcoinCall is_testnet)
  match dev.install_bitcoin_app is_testnet with
  | .ok _ => s.printLn "Successfully installed the app."
  | .error .AlreadyInstalled => s.errorExit msg_btc_already_installed
  | .error .AppNotFound => s.errorExit msg_btc_app_not_found
  | .error (.Any e) => s.errorExit ("Error installing Bitcoin app: " ++ e ++ ".")

/-- Source `fn update_bitcoin` (lines 131-142).  Note the `UpdateErr::Any` arm
reuses the wording "Error installing Bitcoin app". -/
def update_bitcoin (dev : Device) (is_testnet : Bool) (s : St) : St :=
  let s := s.printLn msg_allow_install
  let s := s.log (.updateBitcoinCall is_testnet)
  match dev.update_bitcoin_app is_testnet with
  | .ok _ => s.printLn "Successfully updated the app."
  | .error .NotInstalled => s.errorExit msg_btc_not_installed
  | .error .AppNotFound => s.errorExit msg_btc_app_not_found
  | .error .AlreadyLatest => s.errorExit msg_btc_already_latest
  | .error (.Any e) => s.errorExit ("Error installing Bitcoin app: " ++ e ++ ".")

/-- Source `fn open_bitcoin` (lines 144-148). -/
def open_bitcoin (dev : Device) (is_testnet : Bool) (s : St) : St :=
  let s := s.log (.openBitcoinCall is_testnet)
  match dev.open_bitcoin_app is_testnet with
  | .error e => s.errorExit ("Error opening Bitcoin app: " ++ e)
  | .ok _ => s

/-- Source `fn install_solana` (lines 151-161). -/
def install_solana (dev : Device) (s : St) : St :=
  let s := s.printLn msg_allow_install
  let s := s.log (.installAppCall .Solana)
  match dev.install_app .Solana with
  | .ok _ => s.printLn "Successfully installed the Solana app."
  | .error .AlreadyInstalled => s.errorExit msg_sol_already_installed
  | .error .AppNotFound => s.errorExit msg_sol_app_not_found
  | .error (.Any e) => s.errorExit ("Error installing Solana app: " ++ e ++ ".")

/-- Source `fn update_solana` (lines 163-174). -/
def update_solana (dev : Device) (s : St) : St :=
  let s := s.printLn msg_allow_install
  let s := s.log (.updateAppCall .Solana)
  match dev.update_app .Solana with
  | .ok _ => s.printLn "Successfully updated the Solana app."
  | .error .NotInstalled => s.errorExit msg_sol_not_installed
  | .error .AppNotFound => s.errorExit msg_sol_app_not_found
  | .error .AlreadyLatest => s.errorExit msg_sol_already_latest
  | .error (.Any e) => s.errorExit ("Error updating Solana app: " ++ e ++ ".")

/-- Source `fn open_solana` (lines 176-180). -/
def open_solana (dev : Device) (s : St) : St :=
  let s := s.log (.openAppCall .Solana)
  match dev.open_app .Solana with
  | .error e => s.errorExit ("Error opening Solana app: " ++ e)
  | .ok _ => s

def usage_msg : String :=
  "Invalid or no command specified. The command must be passed through the LEDGER_COMMAND env var. Set LEDGER_TESTNET to use the Bitcoin testnet app instead where applicable."

/-- Source `fn main` (lines 182-228): resolve the command, open the transport, then
dispatch to the matching workflow.  `Command::UpdateFirmware` hits
`unimplemented!()`. -/
def main (cfg : Config) (dev : Device) : St :=
  match Command.get cfg with
  | none => st0.errorExit usage_msg
  | some command =>
    match ledger_api dev st0 with
    | .inl s => s
    | .inr s =>
      match command with
      | .GetInfo => print_ledger_info dev s
      | .GenuineCheck => perform_genuine_check dev s
      | .InstallMainApp => install_bitcoin dev false s
      | .InstallTestApp => install_bitcoin dev true s
      | .OpenMainApp => open_bitcoin dev false s
      | .OpenTestApp => open_bitcoin dev true s
      | .UpdateMainApp => update_bitcoin dev false s
      | .UpdateTestApp => update_bitcoin dev true s
      | .InstallSolana => install_solana dev s
      | .UpdateSolana => update_solana dev s
      | .OpenSolana => open_solana dev s
      | .UpdateFirmware => s.panicExit "not implemented"

/-- A full process run: `main`, then normal fall-through completion exits 0
when no earlier termination happened. -/
def run (cfg : Config) (dev : Device) : St :=
  let s := main cfg dev
  match s.exit with
  | some _ => s
  | none => { s with exit := some 0 }

/-- A device on which every primitive succeeds. -/
def devAllOk : Device :=
  { hidApiNew := .ok ()
    transportNew := .ok ()
    deviceInfoNew := .ok "LedgerNanoS"
    list_installed_apps := .ok ["Bitcoin"]
    genuine_check := .ok ()
    install_bitcoin_app := fun _ => .ok ()
    update_bitcoin_app := fun _ => .ok ()
    open_bitcoin_app := fun _ => .ok ()
    install_app := fun _ => .ok ()
    update_app := fun _ => .ok ()
    open_app := fun _ => .ok () }

def cfgUF : Config := ⟨some "updatefirm", false, false⟩

def cfgUpdBtcMain : Config := ⟨some "updateapp", false, false⟩

def cfgInstallBtc (b : Bool) : Config := ⟨some "installapp", b, false⟩

def cfgUpdateBtc (b : Bool) : Config := ⟨some "updateapp", b, false⟩

def cfgInstallSol : Config := ⟨some "installapp", false, true⟩

def cfgUpdateSol : Config := ⟨some "updateapp", false, true⟩

def cfgOpenBtc (b : Bool) : Config := ⟨some "openapp", b, false⟩

def cfgOpenSol : Config := ⟨some "openapp", false, true⟩

/-- The six recognized command keywords. -/
def recognized_commands : List String :=
  ["getinfo", "genuinecheck", "installapp", "updateapp", "openapp", "updatefirm"]

/-- The configuration's command keyword is absent or unrecognized. -/
def unrecognized (cfg : Config) : Bool :=
  match cfg.ledger_command with
  | none => true
  | some c => !(recognized_commands.contains c)

/-- Witness device: the Bitcoin-mainnet update primitive answers
`AlreadyLatest`; everything else succeeds. -/
def devAlreadyLatest : Device :=
  { devAllOk with update_bitcoin_app := fun _ => .error .AlreadyLatest }

/-- Witness device: install/update primitives fail with the opaque
`Any` error carrying payload `e`. -/
def devAnyErr (e : String) : Device :=
  { devAllOk with
    install_bitcoin_app := fun _ => .error (.Any e)
    update_bitcoin_app := fun _ => .error (.Any e)
    update_app := fun _ => .error (.Any e) }

/-- No device-management primitive (beyond transport opening) occurs in the
trace. -/
def noDevicePrimitive (l : List Event) : Bool :=
  l.all fun e => !e.isDevicePrimitive

/- ------------------------------------------------------------------ -/
/- Theorems.                                                           -/
/- ------------------------------------------------------------------ -/

theorem St.printLn_stdout (s : St) (m : String) : (s.printLn m).stdout = s.stdout ++ [m] := rfl

theorem St.printLn_stderr (s : St) (m : String) : (s.printLn m).stderr = s.stderr := rfl

theorem St.printLn_events (s : St) (m : String) : (s.printLn m).events = s.events := rfl

theorem St.printLn_exit (s : St) (m : String) : (s.printLn m).exit = s.exit := rfl

theorem St.log_stdout (s : St) (e : Event) : (s.log e).stdout = s.stdout := rfl

theorem St.log_stderr (s : St) (e : Event) : (s.log e).stderr = s.stderr := rfl

theorem St.log_events (s : St) (e : Event) : (s.log e).events = s.events ++ [e] := rfl

theorem St.log_exit (s : St) (e : Event) : (s.log e).exit = s.exit := rfl

theorem St.errorExit_stdout (s : St) (m : String) : (s.errorExit m).stdout = s.stdout := rfl

theorem St.errorExit_stderr (s : St) (m : String) : (s.errorExit m).stderr = s.stderr ++ [m] := rfl

theorem St.errorExit_events (s : St) (m : String) : (s.errorExit m).events = s.events := rfl

theorem St.errorExit_exit (s : St) (m : String) : (s.errorExit m).exit = some 1 := rfl

theorem St.panicExit_stderr (s : St) (m : String) : (s.panicExit m).stderr = s.stderr ++ [m] := rfl

theorem St.panicExit_exit (s : St) (m : String) : (s.panicExit m).exit = some 101 := rfl

theorem exOk_unit {x : Except String Unit} (hx : exOk x = true) : x = .ok () := by
  cases x with
  | ok u => cases u; rfl
  | error e => simp [exOk] at hx

theorem transportOk_spec {dev : Device} (h : transportOk dev = true) :
    dev.hidApiNew = .ok () ∧ dev.transportNew = .ok () := by
  unfold transportOk at h
  rw [Bool.and_eq_true] at h
  exact ⟨exOk_unit h.1, exOk_unit h.2⟩

theorem ledger_api_ok {dev : Device} (h1 : dev.hidApiNew = .ok ())
    (h2 : dev.transportNew = .ok ()) (s : St) :
    ledger_api dev s = .inr ((s.log .hidApiNew).log .transportNew) := by
  unfold ledger_api
  rw [h1, h2]

theorem get_cfgUpdBtcMain : Command.get cfgUpdBtcMain = some Command.UpdateMainApp := rfl

theorem get_cfgInstallBtc (b : Bool) :
    Command.get (cfgInstallBtc b) =
      some (if b then Command.InstallTestApp else Command.InstallMainApp) := by
  cases b <;> rfl

theorem get_cfgUpdateBtc (b : Bool) :
    Command.get (cfgUpdateBtc b) =
      some (if b then Command.UpdateTestApp else Command.UpdateMainApp) := by
  cases b <;> rfl

theorem get_cfgOpenBtc (b : Bool) :
    Command.get (cfgOpenBtc b) =
      some (if b then Command.OpenTestApp else Command.OpenMainApp) := by
  cases b <;> rfl

theorem get_cfgInstallSol : Command.get cfgInstallSol = some Command.InstallSolana := rfl

theorem get_cfgUpdateSol : Command.get cfgUpdateSol = some Command.UpdateSolana := rfl

theorem get_cfgOpenSol : Command.get cfgOpenSol = some Command.OpenSolana := rfl

/-- C3: for command keyword `installapp`, the alternate-target (Solana) flag
takes precedence: if set, resolution yields `InstallSolana` regardless of the
testnet flag; otherwise the testnet flag selects `InstallTestApp`, and with
both flags unset resolution yields `InstallMainApp`. -/
theorem C3 (cfg : Config) (h : cfg.ledger_command = some "installapp") :
    Command.get cfg =
      some (if cfg.ledger_solana then Command.InstallSolana
            else if cfg.ledger_testnet then Command.InstallTestApp
            else Command.InstallMainApp) := by
  obtain ⟨c, t, s⟩ := cfg
  dsimp only at h ⊢
  subst h
  cases s <;> cases t <;> rfl

theorem C3_witness :
    (⟨some "installapp", true, false⟩ : Config).ledger_command = some "installapp" ∧
    Command.get ⟨some "installapp", true, false⟩ =
      some (if (⟨some "installapp", true, false⟩ : Config).ledger_solana then Command.InstallSolana
            else if (⟨some "installapp", true, false⟩ : Config).ledger_testnet then Command.InstallTestApp
            else Command.InstallMainApp) :=
  ⟨rfl, C3 ⟨some "installapp", true, false⟩ rfl⟩

/-- C7: for the keywords `getinfo`, `genuinecheck` and `updatefirm`, the
resolved operation is independent of the testnet and alternate-target flags:
any two configurations with the same such keyword resolve identically. -/
theorem C7 (c : String) (hc : c = "getinfo" ∨ c = "genuinecheck" ∨ c = "updatefirm")
    (t1 s1 t2 s2 : Bool) :
    Command.get ⟨some c, t1, s1⟩ = Command.get ⟨some c, t2, s2⟩ := by
  rcases hc with rfl | rfl | rfl <;> rfl

theorem C7_witness :
    ("updatefirm" = "getinfo" ∨ "updatefirm" = "genuinecheck" ∨ "updatefirm" = "updatefirm") ∧
    Command.get ⟨some "updatefirm", false, false⟩ = Command.get ⟨some "updatefirm", true, true⟩ :=
  ⟨Or.inr (Or.inr rfl), C7 "updatefirm" (Or.inr (Or.inr rfl)) false false true true⟩

/-- C6: with configuration `{command=updateapp, testnet unset, alternate
unset}` and the Bitcoin-mainnet update primitive answering `AlreadyLatest`,
the process prints the "already latest" message on stderr and exits 1. -/
theorem C6 (dev : Device) (htr : transportOk dev = true)
    (h : dev.update_bitcoin_app false = .error UpdateErr.AlreadyLatest) :
    (run cfgUpdBtcMain dev).stderr = [msg_btc_already_latest] ∧
    (run cfgUpdBtcMain dev).exit = some 1 := by
  obtain ⟨h1, h2⟩ := transportOk_spec htr
  simp [run, main, get_cfgUpdBtcMain, ledger_api_ok h1 h2, update_bitcoin, h,
    St.errorExit, St.printLn, St.log, st0]

theorem C6_witness :
    transportOk devAlreadyLatest = true ∧
    devAlreadyLatest.update_bitcoin_app false = .error UpdateErr.AlreadyLatest ∧
    ((run cfgUpdBtcMain devAlreadyLatest).stderr = [msg_btc_already_latest] ∧
     (run cfgUpdBtcMain devAlreadyLatest).exit = some 1) :=
  ⟨rfl, rfl, C6 devAlreadyLatest rfl rfl⟩

/-- C4: with a missing or unrecognized command keyword, resolution fails, the
process prints the usage/guidance message on stderr and exits 1, and no
transport-layer or device call is ever attempted. -/
theorem C4 (cfg : Config) (dev : Device) (h : unrecognized cfg = true) :
    Command.get cfg = none ∧
    (run cfg dev).stderr = [usage_msg] ∧
    (run cfg dev).exit = some 1 ∧
    (run cfg dev).events = [] := by
  obtain ⟨c, t, s⟩ := cfg
  have hget : Command.get ⟨c, t, s⟩ = none := by
    cases c with
    | none => rfl
    | some str =>
      simp only [unrecognized] at h
      simp [recognized_commands] at h
      obtain ⟨n1, n2, n3, n4, n5, n6⟩ := h
      simp [Command.get, n1, n2, n3, n4, n5, n6]
  exact ⟨hget, by simp [run, main, hget, St.errorExit, st0]⟩

theorem C4_witness :
    unrecognized ⟨none, false, false⟩ = true ∧
    (Command.get ⟨none, false, false⟩ = none ∧
     (run ⟨none, false, false⟩ devAllOk).stderr = [usage_msg] ∧
     (run ⟨none, false, false⟩ devAllOk).exit = some 1 ∧
     (run ⟨none, false, false⟩ devAllOk).events = []) :=
  ⟨rfl, C4 ⟨none, false, false⟩ devAllOk rfl⟩

theorem foldl_printLn (apps : List String) (s : St) :
    apps.foldl (fun s app => s.printLn ("  - " ++ app)) s =
      { s with stdout := s.stdout ++ apps.map (fun app => "  - " ++ app) } := by
  induction apps generalizing s with
  | nil => simp
  | cons a as ih =>
    rw [List.foldl_cons, ih]
    simp [St.printLn]

/-- C8: the GetInfo workflow fetches the device info first and lists the
installed applications second; an info-fetch failure terminates with exit 1
before any listing is attempted, and on success the info line is printed
before the application list. -/
theorem C8 (dev : Device) :
    match dev.deviceInfoNew, dev.list_installed_apps with
    | .error e, _ =>
        (print_ledger_info dev st0).events = [Event.deviceInfoFetch] ∧
        (print_ledger_info dev st0).exit = some 1 ∧
        (print_ledger_info dev st0).stderr = ["Error fetching device info: " ++ e] ∧
        (print_ledger_info dev st0).stdout = []
    | .ok i, .error e =>
        (print_ledger_info dev st0).events = [Event.deviceInfoFetch, Event.listApps] ∧
        (print_ledger_info dev st0).exit = some 1 ∧
        (print_ledger_info dev st0).stderr = ["Error listing installed applications: " ++ e ++ "."] ∧
        (print_ledger_info dev st0).stdout = ["Information about the device: " ++ i, msg_querying_apps]
    | .ok i, .ok apps =>
        (print_ledger_info dev st0).events = [Event.deviceInfoFetch, Event.listApps] ∧
        (print_ledger_info dev st0).exit = none ∧
        (print_ledger_info dev st0).stderr = [] ∧
        (print_ledger_info dev st0).stdout =
          ["Information about the device: " ++ i, msg_querying_apps, "Installed applications:"]
            ++ apps.map (fun a => "  - " ++ a) := by
  cases hi : dev.deviceInfoNew with
  | error e =>
    simp [print_ledger_info, device_info, hi, St.errorExit, St.log, st0]
  | ok i =>
    cases hl : dev.list_installed_apps with
    | error e =>
      simp [print_ledger_info, device_info, hi, hl, St.errorExit, St.log, St.printLn, st0]
    | ok apps =>
      have hd : device_info dev st0 = .inr (st0.log .deviceInfoFetch, i) := by
        unfold device_info
        rw [hi]
      simp only [print_ledger_info, hd, hl]
      rw [foldl_printLn]
      simp [St.printLn, St.log, st0]

/-- C9: every Open workflow (Bitcoin mainnet, Bitcoin testnet, Solana) is
silent on success — nothing on stdout or stderr, exit 0 — and on failure the
underlying error is reported verbatim inside the message and the process
exits 1. -/
theorem C9 (dev : Device) (b : Bool) (htr : transportOk dev = true) :
    (match dev.open_bitcoin_app b with
     | .ok _ =>
        (run (cfgOpenBtc b) dev).stdout = [] ∧
        (run (cfgOpenBtc b) dev).stderr = [] ∧
        (run (cfgOpenBtc b) dev).exit = some 0
     | .error e =>
        (run (cfgOpenBtc b) dev).stderr = ["Error opening Bitcoin app: " ++ e] ∧
        (run (cfgOpenBtc b) dev).exit = some 1) ∧
    (match dev.open_app LedgerApp.Solana with
     | .ok _ =>
        (run cfgOpenSol dev).stdout = [] ∧
        (run cfgOpenSol dev).stderr = [] ∧
        (run cfgOpenSol dev).exit = some 0
     | .error e =>
        (run cfgOpenSol dev).stderr = ["Error opening Solana app: " ++ e] ∧
        (run cfgOpenSol dev).exit = some 1) := by
  obtain ⟨h1, h2⟩ := transportOk_spec htr
  constructor
  · cases hb : dev.open_bitcoin_app b with
    | ok u =>
      cases b <;>
        simp [run, main, get_cfgOpenBtc, ledger_api_ok h1 h2, open_bitcoin, hb, St.log, st0]
    | error e =>
      cases b <;>
        simp [run, main, get_cfgOpenBtc, ledger_api_ok h1 h2, open_bitcoin, hb,
          St.errorExit, St.log, st0]
  · cases hs : dev.open_app .Solana with
    | ok u =>
      simp [run, main, get_cfgOpenSol, ledger_api_ok h1 h2, open_solana, hs, St.log, st0]
    | error e =>
      simp [run, main, get_cfgOpenSol, ledger_api_ok h1 h2, open_solana, hs,
        St.errorExit, St.log, st0]

theorem C9_witness :
    transportOk devAllOk = true ∧
    (((run (cfgOpenBtc false) devAllOk).stdout = [] ∧
      (run (cfgOpenBtc false) devAllOk).stderr = [] ∧
      (run (cfgOpenBtc false) devAllOk).exit = some 0) ∧
     ((run cfgOpenSol devAllOk).stdout = [] ∧
      (run cfgOpenSol devAllOk).stderr = [] ∧
      (run cfgOpenSol devAllOk).exit = some 0)) :=
  ⟨rfl, C9 devAllOk false rfl⟩

/-- C10: when the Bitcoin update workflow fails with the opaque
`UpdateErr::Any` kind, its message is byte-identical to the Bitcoin install
workflow's opaque-failure message, "Error installing Bitcoin app: <e>.",
whereas the Solana update workflow says "Error updating Solana app: <e>.". -/
theorem C10 (dev : Device) (b : Bool) (e : String)
    (hu : dev.update_bitcoin_app b = .error (.Any e))
    (hi : dev.install_bitcoin_app b = .error (.Any e))
    (hs : dev.update_app LedgerApp.Solana = .error (.Any e)) :
    (update_bitcoin dev b st0).stderr = ["Error installing Bitcoin app: " ++ e ++ "."] ∧
    (update_bitcoin dev b st0).stderr = (install_bitcoin dev b st0).stderr ∧
    (update_solana dev st0).stderr = ["Error updating Solana app: " ++ e ++ "."] := by
  simp [update_bitcoin, install_bitcoin, update_solana, hu, hi, hs,
    St.errorExit, St.printLn, St.log, st0]

theorem C10_witness :
    (devAnyErr "boom").update_bitcoin_app false = .error (.Any "boom") ∧
    (devAnyErr "boom").install_bitcoin_app false = .error (.Any "boom") ∧
    (devAnyErr "boom").update_app LedgerApp.Solana = .error (.Any "boom") ∧
    ((update_bitcoin (devAnyErr "boom") false st0).stderr =
       ["Error installing Bitcoin app: " ++ "boom" ++ "."] ∧
     (update_bitcoin (devAnyErr "boom") false st0).stderr =
       (install_bitcoin (devAnyErr "boom") false st0).stderr ∧
     (update_solana (devAnyErr "boom") st0).stderr =
       ["Error updating Solana app: " ++ "boom" ++ "."]) :=
  ⟨rfl, rfl, rfl, C10 (devAnyErr "boom") false "boom" rfl rfl rfl⟩

/-- C5: for each target, the four documented install/update failure kinds
(`AlreadyInstalled`, `AppNotFound`, `NotInstalled`, `AlreadyLatest`) each put
one non-empty message on stderr — pairwise distinct for the same target —
and exit 1, while a successful install or update exits 0 with an empty
error stream. -/
theorem C5 (dev : Device) (b : Bool) (htr : transportOk dev = true) :
    (match dev.install_bitcoin_app b with
     | .ok _ =>
        (run (cfgInstallBtc b) dev).exit = some 0 ∧ (run (cfgInstallBtc b) dev).stderr = []
     | .error .AlreadyInstalled =>
        (run (cfgInstallBtc b) dev).exit = some 1 ∧
        (run (cfgInstallBtc b) dev).stderr = [msg_btc_already_installed]
     | .error .AppNotFound =>
        (run (cfgInstallBtc b) dev).exit = some 1 ∧
        (run (cfgInstallBtc b) dev).stderr = [msg_btc_app_not_found]
     | .error (.Any e) =>
        (run (cfgInstallBtc b) dev).exit = some 1 ∧
        (run (cfgInstallBtc b) dev).stderr = ["Error installing Bitcoin app: " ++ e ++ "."]) ∧
    (match dev.update_bitcoin_app b with
     | .ok _ =>
        (run (cfgUpdateBtc b) dev).exit = some 0 ∧ (run (cfgUpdateBtc b) dev).stderr = []
     | .error .NotInstalled =>
        (run (cfgUpdateBtc b) dev).exit = some 1 ∧
        (run (cfgUpdateBtc b) dev).stderr = [msg_btc_not_installed]
     | .error .AppNotFound =>
        (run (cfgUpdateBtc b) dev).exit = some 1 ∧
        (run (cfgUpdateBtc b) dev).stderr = [msg_btc_app_not_found]
     | .error .AlreadyLatest =>
        (run (cfgUpdateBtc b) dev).exit = some 1 ∧
        (run (cfgUpdateBtc b) dev).stderr = [msg_btc_already_latest]
     | .error (.Any e) =>
        (run (cfgUpdateBtc b) dev).exit = some 1 ∧
        (run (cfgUpdateBtc b) dev).stderr = ["Error installing Bitcoin app: " ++ e ++ "."]) ∧
    (match dev.install_app LedgerApp.Solana with
     | .ok _ =>
        (run cfgInstallSol dev).exit = some 0 ∧ (run cfgInstallSol dev).stderr = []
     | .error .AlreadyInstalled =>
        (run cfgInstallSol dev).exit = some 1 ∧
        (run cfgInstallSol dev).stderr = [msg_sol_already_installed]
     | .error .AppNotFound =>
        (run cfgInstallSol dev).exit = some 1 ∧
        (run cfgInstallSol dev).stderr = [msg_sol_app_not_found]
     | .error (.Any e) =>
        (run cfgInstallSol dev).exit = some 1 ∧
        (run cfgInstallSol dev).stderr = ["Error installing Solana app: " ++ e ++ "."]) ∧
    (match dev.update_app LedgerApp.Solana with
     | .ok _ =>
        (run cfgUpdateSol dev).exit = some 0 ∧ (run cfgUpdateSol dev).stderr = []
     | .error .NotInstalled =>
        (run cfgUpdateSol dev).exit = some 1 ∧
        (run cfgUpdateSol dev).stderr = [msg_sol_not_installed]
     | .error .AppNotFound =>
        (run cfgUpdateSol dev).exit = some 1 ∧
        (run cfgUpdateSol dev).stderr = [msg_sol_app_not_found]
     | .error .AlreadyLatest =>
        (run cfgUpdateSol dev).exit = some 1 ∧
        (run cfgUpdateSol dev).stderr = [msg_sol_already_latest]
     | .error (.Any e) =>
        (run cfgUpdateSol dev).exit = some 1 ∧
        (run cfgUpdateSol dev).stderr = ["Error updating Solana app: " ++ e ++ "."]) ∧
    ((msg_btc_already_installed == "") = false ∧
     (msg_btc_app_not_found == "") = false ∧
     (msg_btc_not_installed == "") = false ∧
     (msg_btc_already_latest == "") = false ∧
     (msg_btc_already_installed == msg_btc_app_not_found) = false ∧
     (msg_btc_already_installed == msg_btc_not_installed) = false ∧
     (msg_btc_already_installed == msg_btc_already_latest) = false ∧
     (msg_btc_app_not_found == msg_btc_not_installed) = false ∧
     (msg_btc_app_not_found == msg_btc_already_latest) = false ∧
     (msg_btc_not_installed == msg_btc_already_latest) = false) ∧
    ((msg_sol_already_installed == "") = false ∧
     (msg_sol_app_not_found == "") = false ∧
     (msg_sol_not_installed == "") = false ∧
     (msg_sol_already_latest == "") = false ∧
     (msg_sol_already_installed == msg_sol_app_not_found) = false ∧
     (msg_sol_already_installed == msg_sol_not_installed) = false ∧
     (msg_sol_already_installed == msg_sol_already_latest) = false ∧
     (msg_sol_app_not_found == msg_sol_not_installed) = false ∧
     (msg_sol_app_not_found == msg_sol_already_latest) = false ∧
     (msg_sol_not_installed == msg_sol_already_latest) = false) := by
  obtain ⟨h1, h2⟩ := transportOk_spec htr
  refine ⟨?_, ?_, ?_, ?_, by decide, by decide⟩
  · cases hx : dev.install_bitcoin_app b with
    | ok u =>
      cases b <;>
        simp [run, main, get_cfgInstallBtc, ledger_api_ok h1 h2, install_bitcoin, hx,
          St.printLn, St.log, st0]
    | error k =>
      cases k <;> cases b <;>
        simp [run, main, get_cfgInstallBtc, ledger_api_ok h1 h2, install_bitcoin, hx,
          St.errorExit, St.printLn, St.log, st0]
  · cases hx : dev.update_bitcoin_app b with
    | ok u =>
      cases b <;>
        simp [run, main, get_cfgUpdateBtc, ledger_api_ok h1 h2, update_bitcoin, hx,
          St.printLn, St.log, st0]
    | error k =>
      cases k <;> cases b <;>
        simp [run, main, get_cfgUpdateBtc, ledger_api_ok h1 h2, update_bitcoin, hx,
          St.errorExit, St.printLn, St.log, st0]
  · cases hx : dev.install_app .Solana with
    | ok u =>
      simp [run, main, get_cfgInstallSol, ledger_api_ok h1 h2, install_solana, hx,
        St.printLn, St.log, st0]
    | error k =>
      cases k <;>
        simp [run, main, get_cfgInstallSol, ledger_api_ok h1 h2, install_solana, hx,
          St.errorExit, St.printLn, St.log, st0]
  · cases hx : dev.update_app .Solana with
    | ok u =>
      simp [run, main, get_cfgUpdateSol, ledger_api_ok h1 h2, update_solana, hx,
        St.printLn, St.log, st0]
    | error k =>
      cases k <;>
        simp [run, main, get_cfgUpdateSol, ledger_api_ok h1 h2, update_solana, hx,
          St.errorExit, St.printLn, St.log, st0]

theorem C5_witness :
    transportOk devAllOk = true ∧
    (((run (cfgInstallBtc true) devAllOk).exit = some 0 ∧
      (run (cfgInstallBtc true) devAllOk).stderr = []) ∧
     ((run (cfgUpdateBtc true) devAllOk).exit = some 0 ∧
      (run (cfgUpdateBtc true) devAllOk).stderr = []) ∧
     ((run cfgInstallSol devAllOk).exit = some 0 ∧
      (run cfgInstallSol devAllOk).stderr = []) ∧
     ((run cfgUpdateSol devAllOk).exit = some 0 ∧
      (run cfgUpdateSol devAllOk).stderr = []) ∧
     ((msg_btc_already_installed == "") = false ∧
      (msg_btc_app_not_found == "") = false ∧
      (msg_btc_not_installed == "") = false ∧
      (msg_btc_already_latest == "") = false ∧
      (msg_btc_already_installed == msg_btc_app_not_found) = false ∧
      (msg_btc_already_installed == msg_btc_not_installed) = false ∧
      (msg_btc_already_installed == msg_btc_already_latest) = false ∧
      (msg_btc_app_not_found == msg_btc_not_installed) = false ∧
      (msg_btc_app_not_found == msg_btc_already_latest) = false ∧
      (msg_btc_not_installed == msg_btc_already_latest) = false) ∧
     ((msg_sol_already_installed == "") = false ∧
      (msg_sol_app_not_found == "") = false ∧
      (msg_sol_not_installed == "") = false ∧
      (msg_sol_already_latest == "") = false ∧
      (msg_sol_already_installed == msg_sol_app_not_found) = false ∧
      (msg_sol_already_installed == msg_sol_not_installed) = false ∧
      (msg_sol_already_installed == msg_sol_already_latest) = false ∧
      (msg_sol_app_not_found == msg_sol_not_installed) = false ∧
      (msg_sol_app_not_found == msg_sol_already_latest) = false ∧
      (msg_sol_not_installed == msg_sol_already_latest) = false)) :=
  ⟨rfl, C5 devAllOk true rfl⟩

/-- C1 counterexample: with `{command=updatefirm}` on a device whose
transport opens fine, the run's trace contains the transport-opening calls —
`main` opens the transport before dispatching on the command — refuting
"neither opening a transport nor issuing any device primitive". -/
theorem C1_counterexample :
    Command.get cfgUF = some Command.UpdateFirmware ∧
    Event.hidApiNew ∈ (run cfgUF devAllOk).events ∧
    Event.transportNew ∈ (run cfgUF devAllOk).events := by
  have hev : (run cfgUF devAllOk).events = [Event.hidApiNew, Event.transportNew] := rfl
  rw [hev]
  exact ⟨rfl, by simp, by simp⟩

/-- C1 amended: `updatefirm` always resolves to `UpdateFirmware` regardless
of the flags; the run never issues any device-management primitive, the
transport IS opened first, and once the transport is open the workflow fails
with the "not implemented" panic (exit 101); a transport failure exits 1. -/
theorem C1_amended (cfg : Config) (dev : Device)
    (h : cfg.ledger_command = some "updatefirm") :
    Command.get cfg = some Command.UpdateFirmware ∧
    noDevicePrimitive (run cfg dev).events = true ∧
    (if transportOk dev
     then (run cfg dev).exit = some 101 ∧ "not implemented" ∈ (run cfg dev).stderr
     else (run cfg dev).exit = some 1) := by
  obtain ⟨c, t, s⟩ := cfg
  dsimp only at h
  subst h
  have hget : Command.get ⟨some "updatefirm", t, s⟩ = some Command.UpdateFirmware := by
    cases t <;> cases s <;> rfl
  cases h1 : dev.hidApiNew with
  | error e =>
    simp [run, main, hget, ledger_api, h1, transportOk, exOk, noDevicePrimitive,
      Event.isDevicePrimitive, St.log, St.errorExit, st0]
  | ok u =>
    cases u
    cases h2 : dev.transportNew with
    | error e =>
      simp [run, main, hget, ledger_api, h1, h2, transportOk, exOk, noDevicePrimitive,
        Event.isDevicePrimitive, St.log, St.errorExit, st0]
    | ok u =>
      cases u
      simp [run, main, hget, ledger_api, h1, h2, transportOk, exOk, noDevicePrimitive,
        Event.isDevicePrimitive, St.log, St.panicExit, st0]

theorem C1_witness :
    cfgUF.ledger_command = some "updatefirm" ∧
    (Command.get cfgUF = some Command.UpdateFirmware ∧
     noDevicePrimitive (run cfgUF devAllOk).events = true ∧
     ((run cfgUF devAllOk).exit = some 101 ∧
      "not implemented" ∈ (run cfgUF devAllOk).stderr)) :=
  ⟨rfl, C1_amended cfgUF devAllOk rfl⟩

/-- C2 counterexample: the `UpdateFirmware` workflow is a failure path —
`unimplemented!()` panics, putting "not implemented" on stderr — yet the
process exit status is 101, not 1. -/
theorem C2_counterexample :
    (run cfgUF devAllOk).stderr = ["not implemented"] ∧
    (run cfgUF devAllOk).exit = some 101 := ⟨rfl, rfl⟩

theorem pli_cases (dev : Device) (s : St) (hx : s.exit = none) (he : s.stderr = []) :
    ((print_ledger_info dev s).exit = none ∧ (print_ledger_info dev s).stderr = []) ∨
    ((print_ledger_info dev s).exit = some 1 ∧
     (print_ledger_info dev s).stderr.isEmpty = false) := by
  cases hi : dev.deviceInfoNew with
  | error e =>
    right
    simp [print_ledger_info, device_info, hi, St.errorExit, St.log, he, List.isEmpty]
  | ok i =>
    have hd : device_info dev s = .inr (s.log .deviceInfoFetch, i) := by
      unfold device_info
      rw [hi]
    cases hl : dev.list_installed_apps with
    | error e =>
      right
      simp [print_ledger_info, hd, hl, St.errorExit, St.printLn, St.log, he, List.isEmpty]
    | ok apps =>
      left
      simp only [print_ledger_info, hd, hl]
      rw [foldl_printLn]
      simp [St.printLn, St.log, hx, he]

theorem pgc_cases (dev : Device) (s : St) (hx : s.exit = none) (he : s.stderr = []) :
    ((perform_genuine_check dev s).exit = none ∧ (perform_genuine_check dev s).stderr = []) ∨
    ((perform_genuine_check dev s).exit = some 1 ∧
     (perform_genuine_check dev s).stderr.isEmpty = false) := by
  cases hk : dev.genuine_check with
  | ok u =>
    left
    simp [perform_genuine_check, hk, St.printLn, St.log, hx, he]
  | error e =>
    right
    simp [perform_genuine_check, hk, St.errorExit, St.printLn, St.log, he, List.isEmpty]

theorem install_bitcoin_cases (dev : Device) (b : Bool) (s : St)
    (hx : s.exit = none) (he : s.stderr = []) :
    ((install_bitcoin dev b s).exit = none ∧ (install_bitcoin dev b s).stderr = []) ∨
    ((install_bitcoin dev b s).exit = some 1 ∧
     (install_bitcoin dev b s).stderr.isEmpty = false) := by
  cases hk : dev.install_bitcoin_app b with
  | ok u =>
    left
    simp [install_bitcoin, hk, St.printLn, St.log, hx, he]
  | error k =>
    right
    cases k <;> simp [install_bitcoin, hk, St.errorExit, St.printLn, St.log, he, List.isEmpty]

theorem update_bitcoin_cases (dev : Device) (b : Bool) (s : St)
    (hx : s.exit = none) (he : s.stderr = []) :
    ((update_bitcoin dev b s).exit = none ∧ (update_bitcoin dev b s).stderr = []) ∨
    ((update_bitcoin dev b s).exit = some 1 ∧
     (update_bitcoin dev b s).stderr.isEmpty = false) := by
  cases hk : dev.update_bitcoin_app b with
  | ok u =>
    left
    simp [update_bitcoin, hk, St.printLn, St.log, hx, he]
  | error k =>
    right
    cases k <;> simp [update_bitcoin, hk, St.errorExit, St.printLn, St.log, he, List.isEmpty]

theorem open_bitcoin_cases (dev : Device) (b : Bool) (s : St)
    (hx : s.exit = none) (he : s.stderr = []) :
    ((open_bitcoin dev b s).exit = none ∧ (open_bitcoin dev b s).stderr = []) ∨
    ((open_bitcoin dev b s).exit = some 1 ∧
     (open_bitcoin dev b s).stderr.isEmpty = false) := by
  cases hk : dev.open_bitcoin_app b with
  | ok u =>
    left
    simp [open_bitcoin, hk, St.log, hx, he]
  | error e =>
    right
    simp [open_bitcoin, hk, St.errorExit, St.log, he, List.isEmpty]

theorem install_solana_cases (dev : Device) (s : St)
    (hx : s.exit = none) (he : s.stderr = []) :
    ((install_solana dev s).exit = none ∧ (install_solana dev s).stderr = []) ∨
    ((install_solana dev s).exit = some 1 ∧
     (install_solana dev s).stderr.isEmpty = false) := by
  cases hk : dev.install_app .Solana with
  | ok u =>
    left
    simp [install_solana, hk, St.printLn, St.log, hx, he]
  | error k =>
    right
    cases k <;> simp [install_solana, hk, St.errorExit, St.printLn, St.log, he, List.isEmpty]

theorem update_solana_cases (dev : Device) (s : St)
    (hx : s.exit = none) (he : s.stderr = []) :
    ((update_solana dev s).exit = none ∧ (update_solana dev s).stderr = []) ∨
    ((update_solana dev s).exit = some 1 ∧
     (update_solana dev s).stderr.isEmpty = false) := by
  cases hk : dev.update_app .Solana with
  | ok u =>
    left
    simp [update_solana, hk, St.printLn, St.log, hx, he]
  | error k =>
    right
    cases k <;> simp [update_solana, hk, St.errorExit, St.printLn, St.log, he, List.isEmpty]

theorem open_solana_cases (dev : Device) (s : St)
    (hx : s.exit = none) (he : s.stderr = []) :
    ((open_solana dev s).exit = none ∧ (open_solana dev s).stderr = []) ∨
    ((open_solana dev s).exit = some 1 ∧
     (open_solana dev s).stderr.isEmpty = false) := by
  cases hk : dev.open_app .Solana with
  | ok u =>
    left
    simp [open_solana, hk, St.log, hx, he]
  | error e =>
    right
    simp [open_solana, hk, St.errorExit, St.log, he, List.isEmpty]

theorem run_exit_cases {cfg : Config} {dev : Device}
    (h : ((main cfg dev).exit = none ∧ (main cfg dev).stderr = []) ∨
         ((main cfg dev).exit = some 1 ∧ (main cfg dev).stderr.isEmpty = false)) :
    ((run cfg dev).exit = some 0 ∧ (run cfg dev).stderr.isEmpty = true) ∨
    ((run cfg dev).exit = some 1 ∧ (run cfg dev).stderr.isEmpty = false) := by
  rcases h with ⟨hx, he⟩ | ⟨hx, he⟩
  · left
    simp [run, hx, he, List.isEmpty]
  · right
    simp [run, hx, he]

/-- C2 amended: the exit status is 0 exactly on a completed workflow (empty
error stream) and 1 on every failure path — resolution, transport,
device-info or workflow failure — except the UpdateFirmware workflow, which
terminates through the `unimplemented!()` panic with status 101. -/
theorem C2_amended (cfg : Config) (dev : Device) :
    ((run cfg dev).exit = some 0 ∧ (run cfg dev).stderr.isEmpty = true) ∨
    ((run cfg dev).exit = some 1 ∧ (run cfg dev).stderr.isEmpty = false) ∨
    ((run cfg dev).exit = some 101 ∧ (run cfg dev).stderr.isEmpty = false ∧
     Command.get cfg = some Command.UpdateFirmware ∧ transportOk dev = true) := by
  cases hget : Command.get cfg with
  | none =>
    right; left
    simp [run, main, hget, St.errorExit, st0, List.isEmpty]
  | some c =>
    cases h1 : dev.hidApiNew with
    | error e =>
      right; left
      simp [run, main, hget, ledger_api, h1, St.errorExit, St.log, st0, List.isEmpty]
    | ok u =>
      cases u
      cases h2 : dev.transportNew with
      | error e =>
        right; left
        simp [run, main, hget, ledger_api, h1, h2, St.errorExit, St.log, st0, List.isEmpty]
      | ok u =>
        cases u
        have hapi := ledger_api_ok h1 h2 st0
        have htrOk : transportOk dev = true := by simp [transportOk, exOk, h1, h2]
        have hx : ((st0.log Event.hidApiNew).log Event.transportNew).exit = none := rfl
        have he : ((st0.log Event.hidApiNew).log Event.transportNew).stderr = [] := rfl
        cases c with
        | GetInfo =>
          have hm : main cfg dev =
              print_ledger_info dev ((st0.log .hidApiNew).log .transportNew) := by
            unfold main
            rw [hget, hapi]
          have hc := pli_cases dev _ hx he
          rw [← hm] at hc
          rcases run_exit_cases hc with h | h
          · exact Or.inl h
          · exact Or.inr (Or.inl h)
        | GenuineCheck =>
          have hm : main cfg dev =
              perform_genuine_check dev ((st0.log .hidApiNew).log .transportNew) := by
            unfold main
            rw [hget, hapi]
          have hc := pgc_cases dev _ hx he
          rw [← hm] at hc
          rcases run_exit_cases hc with h | h
          · exact Or.inl h
          · exact Or.inr (Or.inl h)
        | InstallMainApp =>
          have hm : main cfg dev =
              install_bitcoin dev false ((st0.log .hidApiNew).log .transportNew) := by
            unfold main
            rw [hget, hapi]
          have hc := install_bitcoin_cases dev false _ hx he
          rw [← hm] at hc
          rcases run_exit_cases hc with h | h
          · exact Or.inl h
          · exact Or.inr (Or.inl h)
        | InstallTestApp =>
          have hm : main cfg dev =
              install_bitcoin dev true ((st0.log .hidApiNew).log .transportNew) := by
            unfold main
            rw [hget, hapi]
          have hc := install_bitcoin_cases dev true _ hx he
          rw [← hm] at hc
          rcases run_exit_cases hc with h | h
          · exact Or.inl h
          · exact Or.inr (Or.inl h)
        | OpenMainApp =>
          have hm : main cfg dev =
              open_bitcoin dev false ((st0.log .hidApiNew).log .transportNew) := by
            unfold main
            rw [hget, hapi]
          have hc := open_bitcoin_cases dev false _ hx he
          rw [← hm] at hc
          rcases run_exit_cases hc with h | h
          · exact Or.inl h
          · exact Or.inr (Or.inl h)
        | OpenTestApp =>
          have hm : main cfg dev =
              open_bitcoin dev true ((st0.log .hidApiNew).log .transportNew) := by
            unfold main
            rw [hget, hapi]
          have hc := open_bitcoin_cases dev true _ hx he
          rw [← hm] at hc
          rcases run_exit_cases hc with h | h
          · exact Or.inl h
          · exact Or.inr (Or.inl h)
        | UpdateMainApp =>
          have hm : main cfg dev =
              update_bitcoin dev false ((st0.log .hidApiNew).log .transportNew) := by
            unfold main
            rw [hget, hapi]
          have hc := update_bitcoin_cases dev false _ hx he
          rw [← hm] at hc
          rcases run_exit_cases hc with h | h
          · exact Or.inl h
          · exact Or.inr (Or.inl h)
        | UpdateTestApp =>
          have hm : main cfg dev =
              update_bitcoin dev true ((st0.log .hidApiNew).log .transportNew) := by
            unfold main
            rw [hget, hapi]
          have hc := update_bitcoin_cases dev true _ hx he
          rw [← hm] at hc
          rcases run_exit_cases hc with h | h
          · exact Or.inl h
          · exact Or.inr (Or.inl h)
        | InstallSolana =>
          have hm : main cfg dev =
              install_solana dev ((st0.log .hidApiNew).log .transportNew) := by
            unfold main
            rw [hget, hapi]
          have hc := install_solana_cases dev _ hx he
          rw [← hm] at hc
          rcases run_exit_cases hc with h | h
          · exact Or.inl h
          · exact Or.inr (Or.inl h)
        | UpdateSolana =>
          have hm : main cfg dev =
              update_solana dev ((st0.log .hidApiNew).log .transportNew) := by
            unfold main
            rw [hget, hapi]
          have hc := update_solana_cases dev _ hx he
          rw [← hm] at hc
          rcases run_exit_cases hc with h | h
          · exact Or.inl h
          · exact Or.inr (Or.inl h)
        | OpenSolana =>
          have hm : main cfg dev =
              open_solana dev ((st0.log .hidApiNew).log .transportNew) := by
            unfold main
            rw [hget, hapi]
          have hc := open_solana_cases dev _ hx he
          rw [← hm] at hc
          rcases run_exit_cases hc with h | h
          · exact Or.inl h
          · exact Or.inr (Or.inl h)
        | UpdateFirmware =>
          have hm : main cfg dev =
              ((st0.log .hidApiNew).log .transportNew).panicExit "not implemented" := by
            unfold main
            rw [hget, hapi]
          right; right
          refine ⟨?_, ?_, rfl, htrOk⟩
          · simp [run, hm, St.panicExit, St.log, st0]
          · simp [run, hm, St.panicExit, St.log, st0, List.isEmpty]

end LedgerInstaller
